import Mathlib

set_option maxRecDepth 2048

/-!
Shallow embedding of the `starwars_book_gen` chapter-generation pipeline
(`app/book_writer.py` and the request handler in `app/main.py`).

Conventions of the embedding:

* Python `int` is `ℤ`.  All divisions reached by the pipeline have positive
  operands, where Python's `int(a / b)` (float division then truncation),
  Python's floor division and Lean's `Int.ediv` (the `/` of `ℤ`) coincide.
* Python's built-in `round` rounds half to even.  `book_writer.py` only ever
  rounds quotients `a / b` of machine-small integers with `b ∈ {7, 750}`,
  where the float quotient is close enough to the exact rational that the
  rounding decision is the exact one; `pyRound a b` below performs exact
  round-half-to-even of the rational `a / b` for `b > 0`, using only integer
  arithmetic.
* The external services (OpenAI chat completions, DALL-E, the HTTP image
  download) are an oracle, the `Services` structure: each field maps the
  arguments the code sends to the reply the service gives, `none` standing
  for a raised exception.  Prompt-template construction (`prompt_builder.py`)
  is an opaque formatting step, so the oracle receives the raw arguments the
  code would format into the prompt.
* Every function returns its value paired with the ordered list of external
  calls it performed (`CallEvent`), so that claims about which calls happen,
  how many, and with which arguments are statements about the trace.
  `asyncio.sleep` delays are not calls and leave no event.  The concurrent
  `asyncio.gather` of prologue/epilogue/chapter-titles is embedded
  sequentially in the dictionary order of the source; a failure of any of the
  three fails the gather either way.
* `save_book_as_pdf` (`book_pdf_exporter.py`, the Document Assembler) is
  outside the pipeline; its invocation is recorded as the `pdfSave` event.
* `book_writer.py` defines `generate_chapter_image` twice; the second
  definition (lines 208-257) shadows the first and is the one embedded.
-/

namespace StarWarsBookGen

/-- Exact round-half-to-even of the rational `a / b` (for `b > 0`): the value
Python's `round(a / b)` computes on the quotients taken in
`book_writer.py`. -/
def pyRound (a b : ℤ) : ℤ :=
  let q := a / b
  let r := a % b
  if 2 * r < b then q
  else if b < 2 * r then q + 1
  else if q % 2 = 0 then q else q + 1

/-- `WORDS_PER_SECTION_TARGET` of `book_writer.py`. -/
def WORDS_PER_SECTION_TARGET : ℤ := 750

/-- `WORDS_PER_PAGE`, local to `calculate_book_parameters`. -/
def WORDS_PER_PAGE : ℤ := 250

/-- `FIXED_FRONT_MATTER`, local to `calculate_book_parameters`. -/
def FIXED_FRONT_MATTER : ℤ := 27

/-- `OVERHEAD_PAGES_PER_CHAPTER`, local to `calculate_book_parameters`. -/
def OVERHEAD_PAGES_PER_CHAPTER : ℤ := 2

/-- `calculate_book_parameters(num_pages)` of `book_writer.py` (lines 39-54):
the Budget Planner.  Returns `(chapters_needed, target_words_per_chapter)`. -/
def calculate_book_parameters (num_pages : ℤ) : ℤ × ℤ :=
  let pages_for_chapters := num_pages - FIXED_FRONT_MATTER
  let chapters_needed :=
    max 1 (min 12 (pyRound pages_for_chapters (5 + OVERHEAD_PAGES_PER_CHAPTER)))
  let content_pages_for_chapters :=
    max 1 (num_pages - FIXED_FRONT_MATTER - chapters_needed * OVERHEAD_PAGES_PER_CHAPTER)
  let total_words_needed := content_pages_for_chapters * WORDS_PER_PAGE
  let target_words_per_chapter :=
    if 0 < chapters_needed then total_words_needed / chapters_needed else 0
  (chapters_needed, target_words_per_chapter)

/-- One external call of the pipeline, with the arguments that identify it. -/
inductive CallEvent where
  /-- A `generate_chapter_section` chat completion: the unit title, the
  continuity summary passed in, and the requested word count. -/
  | sectionCall (title summary : String) (words : ℤ)
  /-- A `summarize_section` chat completion on the given section text. -/
  | summaryCall (text : String)
  /-- The `select_book_data_context` chat completion. -/
  | selectCall
  /-- The `generate_book_title` chat completion. -/
  | titleCall (prompt : String)
  /-- The `generate_chapter_titles` chat completion. -/
  | titlesCall (numChapters : ℤ)
  /-- Stage 1 of `generate_chapter_image`: the prompt-sanitization completion. -/
  | imagePromptCall (summary : String)
  /-- Stage 2 of `generate_chapter_image`: the DALL-E image generation. -/
  | imageCall (prompt : String)
  /-- Stage 3 of `generate_chapter_image`: the HTTP download of the image. -/
  | downloadCall (url : String)
  /-- The handler's `save_book_as_pdf` invocation (Document Assembler). -/
  | pdfSave (filename : String)
deriving DecidableEq

/-- The oracle for the external services.  `Ctx` is the type of the selected
SWAPI data context (a JSON-like mapping in the source, opaque here).  A
`none` reply is a raised exception. -/
structure Services (Ctx : Type) where
  /-- Reply to the `generate_chapter_section` completion, keyed by
  (prompt, title, summary, context, words) as assembled by
  `build_chapter_section_prompt`. -/
  sectionResp : String → String → String → Ctx → ℤ → Option String
  /-- Reply to the `summarize_section` completion, keyed by the text. -/
  summaryResp : String → Option String
  /-- Reply to the `generate_book_title` completion, keyed by the prompt. -/
  titleResp : String → Option String
  /-- Reply to the `generate_chapter_titles` completion, keyed by
  (prompt, context, num_chapters). -/
  titlesResp : String → Ctx → ℤ → Option String
  /-- Outcome of `select_book_data_context`: `none` is a transport failure of
  the completion itself (uncaught); `some none` is the caught
  `JSONDecodeError`/`KeyError` path; `some (some c)` is a parsed selection
  filtered down to the context `c`. -/
  selectResp : Option (Option Ctx)
  /-- The fallback context built on the caught parse failure, the literal
  empty people/planets/starships mapping in the source. -/
  emptyCtx : Ctx
  /-- `json.dumps(data_context, indent=4)`. -/
  jsonDump : Ctx → String
  /-- Reply to stage 1 of `generate_chapter_image` (safe-prompt completion),
  keyed by the chapter summary. -/
  imagePromptResp : String → Option String
  /-- Reply to stage 2 of `generate_chapter_image` (DALL-E), keyed by the
  sanitized prompt; the reply is the image URL. -/
  imageResp : String → Option String
  /-- Outcome of stage 3 of `generate_chapter_image` (download + write),
  keyed by the URL. -/
  downloadResp : String → Option Unit
  /-- The 12-character random filename stem `random.choices` draws for the
  image of the chapter with the given summary (randomness determinized by
  its call site). -/
  imageName : String → String

variable {Ctx : Type}

/-- Python's `str.strip(c)` for a single character `c`: drop every leading
and trailing occurrence. -/
def pyStripChar (c : Char) (s : String) : String :=
  String.mk (((s.toList.dropWhile (· = c)).reverse.dropWhile (· = c)).reverse)

/-- Python's `str.strip()` with no argument: drop leading and trailing
whitespace. -/
def pyStrip (s : String) : String :=
  String.mk (((s.toList.dropWhile Char.isWhitespace).reverse.dropWhile
    Char.isWhitespace).reverse)

/-- Python's `str.replace(old, "")` for a single character: drop every
occurrence. -/
def pyRemoveChar (c : Char) (s : String) : String :=
  String.mk (s.toList.filter (· != c))

/-- Python's `str.replace(old, new)` for single characters. -/
def pyReplaceChar (old new : Char) (s : String) : String :=
  String.mk (s.toList.map (fun c => if c = old then new else c))

/-- The lines of a string, split at every newline character. -/
def splitLinesAux : List Char → List (List Char)
  | [] => [[]]
  | c :: rest =>
    if c = '\n' then [] :: splitLinesAux rest
    else
      match splitLinesAux rest with
      | [] => [[c]]
      | h :: t => (c :: h) :: t

/-- The lines of a string, as strings. -/
def splitLines (content : String) : List String :=
  (splitLinesAux content.toList).map String.mk

/-- `generate_chapter_section` of `book_writer.py` (lines 117-124): one
body-text completion, `.strip()` applied to the reply; an exception
propagates (`none`). -/
def generate_chapter_section (env : Services Ctx) (prompt title summary : String)
    (ctx : Ctx) (words : ℤ) : Option String × List CallEvent :=
  ((env.sectionResp prompt title summary ctx words).map pyStrip,
   [CallEvent.sectionCall title summary words])

/-- `summarize_section` of `book_writer.py` (lines 126-135): on success the
stripped reply, on a caught exception the first 300 characters of the text
followed by an ellipsis marker. -/
def summarize_section (env : Services Ctx) (text : String) : String × List CallEvent :=
  (match env.summaryResp text with
   | some c => pyStrip c
   | none => text.take 300 ++ "...",
   [CallEvent.summaryCall text])

/-- The `for i in range(num_sections)` loop of `generate_content_block`
(lines 151-158), by the number of iterations left: each iteration generates
one section at `WORDS_PER_SECTION_TARGET` words, and every iteration but the
last summarizes the section just generated to obtain the next continuity
summary.  (The `i < num_sections - 1` test of the source is unrolled here
into the one-iteration-left base case, which does not summarize.)  A
section-generation failure propagates; the calls already made stay in the
trace. -/
def sectionLoop (env : Services Ctx) (prompt title : String) (ctx : Ctx) :
    String → Nat → Option (List String) × List CallEvent
  | _, 0 => (some [], [])
  | summary, 1 =>
    match generate_chapter_section env prompt title summary ctx WORDS_PER_SECTION_TARGET with
    | (none, ev) => (none, ev)
    | (some t, ev) => (some [t], ev)
  | summary, n + 2 =>
    match generate_chapter_section env prompt title summary ctx WORDS_PER_SECTION_TARGET with
    | (none, ev) => (none, ev)
    | (some t, ev) =>
      let (s2, sev) := summarize_section env t
      let (rest, evs) := sectionLoop env prompt title ctx s2 (n + 1)
      (rest.map (t :: ·), ev ++ sev ++ evs)

/-- `generate_content_block` of `book_writer.py` (lines 137-161): the
Chapter Pipeline's per-narrative-unit routine (`generateUnit`). -/
def generate_content_block (env : Services Ctx) (prompt title : String) (ctx : Ctx)
    (word_target : ℤ) : Option String × List CallEvent :=
  if word_target ≤ 0 then (some "", [])
  else if word_target ≤ WORDS_PER_SECTION_TARGET then
    generate_chapter_section env prompt title "Start of the section." ctx word_target
  else
    let num_sections := pyRound word_target WORDS_PER_SECTION_TARGET
    let summary := "The section is '" ++ title ++ "'. Set the scene and begin the narrative."
    let (parts, evs) := sectionLoop env prompt title ctx summary num_sections.toNat
    (parts.map (String.intercalate "\n\n"), evs)

/-- One line of the chapter-titles reply against the pattern
`^\d+\.\s*(.*)` : leading digits, a dot, optional whitespace, then the
captured title. -/
def parseTitleLine (line : String) : Option String :=
  let cs := line.toList
  let ds := cs.takeWhile Char.isDigit
  if ds.isEmpty then none
  else
    match cs.drop ds.length with
    | '.' :: rest => some (String.mk (rest.dropWhile Char.isWhitespace))
    | _ => none

/-- `re.findall(r'^\d+\.\s*(.*)', content, re.MULTILINE)` of
`generate_chapter_titles`, read line by line. -/
def parseNumberedTitles (content : String) : List String :=
  (splitLines content).filterMap parseTitleLine

/-- `generate_chapter_titles` of `book_writer.py` (lines 107-115): parse the
numbered lines out of the reply; if none parse, fall back to
`Chapter 1 .. Chapter num_chapters`. -/
def generate_chapter_titles (env : Services Ctx) (prompt : String) (ctx : Ctx)
    (num_chapters : ℤ) : Option (List String) × List CallEvent :=
  (match env.titlesResp prompt ctx num_chapters with
   | none => none
   | some content =>
     let titles := parseNumberedTitles content
     some (if titles.isEmpty then
             (List.range num_chapters.toNat).map (fun i => "Chapter " ++ toString (i + 1))
           else titles),
   [CallEvent.titlesCall num_chapters])

/-- `generate_book_title` of `book_writer.py` (lines 99-105). -/
def generate_book_title (env : Services Ctx) (prompt : String) :
    Option String × List CallEvent :=
  ((env.titleResp prompt).map (fun c => pyStripChar '"' (pyStrip c)),
   [CallEvent.titleCall prompt])

/-- `select_book_data_context` of `book_writer.py` (lines 57-71): the caught
parse failure falls back to the empty context; a transport failure
propagates. -/
def select_book_data_context (env : Services Ctx) : Option Ctx × List CallEvent :=
  (match env.selectResp with
   | none => none
   | some none => some env.emptyCtx
   | some (some c) => some c,
   [CallEvent.selectCall])

/-- `generate_chapter_image` of `book_writer.py` (the operative definition,
lines 208-257): sanitize the summary into a safe prompt, generate the image,
download it; any failure in any stage is caught and yields no image. -/
def generate_chapter_image (env : Services Ctx) (chapter_summary : String) :
    Option String × List CallEvent :=
  match env.imagePromptResp chapter_summary with
  | none => (none, [CallEvent.imagePromptCall chapter_summary])
  | some raw =>
    let image_prompt := pyStripChar '"' (pyStrip raw)
    match env.imageResp image_prompt with
    | none => (none, [CallEvent.imagePromptCall chapter_summary,
                      CallEvent.imageCall image_prompt])
    | some url =>
      let output_path := "generated_images/" ++ env.imageName chapter_summary ++ ".png"
      match env.downloadResp url with
      | none => (none, [CallEvent.imagePromptCall chapter_summary,
                        CallEvent.imageCall image_prompt,
                        CallEvent.downloadCall url])
      | some _ => (some output_path, [CallEvent.imagePromptCall chapter_summary,
                                      CallEvent.imageCall image_prompt,
                                      CallEvent.downloadCall url])

/-- One element of `chapters_data` in `generate_user_prompt_driven_book`. -/
structure Chapter where
  heading : String
  content : String
  image_path : Option String
deriving DecidableEq

/-- The dictionary `generate_user_prompt_driven_book` returns: the Book. -/
structure BookData where
  swapi_call_text : String
  swapi_json_output : String
  preface_text : String
  prologue_text : String
  epilogue_text : String
  chapters : List Chapter
deriving DecidableEq

/-- The `preface_text` literal of `generate_user_prompt_driven_book`. -/
def PREFACE_TEXT : String :=
  "A long time ago, in a galaxy far, far away, the stories were endless. They were tales of heroism and betrayal, of light and darkness, echoing from the Core Worlds to the Outer Rim. What you hold in your hands is one such echo—a story inspired by a fragment of that vast history.\n\nThis is a work of fan-fiction, a tribute to the universe that has captured our imaginations for generations. It is a 'what if,' a new perspective on a familiar galaxy. It was not crafted by a story group or a corporation, but by a spark of digital consciousness guided by a simple prompt, weaving together known legends with new possibilities. May it transport you, once again, to that galaxy of endless adventure."

/-- The sequential per-chapter loop of `generate_user_prompt_driven_book`
(lines 184-193): for each remaining title (with `i` the index of the first),
generate the chapter body, summarize it, request the illustration, and
append `{heading, content, image_path}`.  A body failure propagates. -/
def chapterLoop (env : Services Ctx) (prompt : String) (ctx : Ctx) (target_words : ℤ) :
    List String → Nat → Option (List Chapter) × List CallEvent
  | [], _ => (some [], [])
  | title :: rest, i =>
    let chapter_heading := "Chapter " ++ (toString (i + 1) ++ ": " ++ title)
    match generate_content_block env prompt chapter_heading ctx target_words with
    | (none, evs) => (none, evs)
    | (some chapter_text, evs) =>
      let (image_summary, sev) := summarize_section env chapter_text
      let (image_path, ievs) := generate_chapter_image env image_summary
      let (more, revs) := chapterLoop env prompt ctx target_words rest (i + 1)
      (more.map (fun chs => { heading := title, content := chapter_text,
                              image_path := image_path } :: chs),
       evs ++ sev ++ ievs ++ revs)

/-- `generate_user_prompt_driven_book` of `book_writer.py` (lines 163-206):
the whole pipeline run for one request. -/
def generate_user_prompt_driven_book (env : Services Ctx) (prompt : String)
    (num_pages : ℤ) : Option BookData × List CallEvent :=
  let plan := calculate_book_parameters num_pages
  match select_book_data_context env with
  | (none, evs0) => (none, evs0)
  | (some data_context, evs0) =>
    match generate_content_block env prompt "Prologue" data_context 250 with
    | (none, evs1) => (none, evs0 ++ evs1)
    | (some prologue_text, evs1) =>
      match generate_content_block env prompt "Epilogue" data_context 250 with
      | (none, evs2) => (none, evs0 ++ evs1 ++ evs2)
      | (some epilogue_text, evs2) =>
        match generate_chapter_titles env prompt data_context plan.1 with
        | (none, evs3) => (none, evs0 ++ evs1 ++ evs2 ++ evs3)
        | (some chapter_titles, evs3) =>
          let final_titles := chapter_titles.take plan.1.toNat
          match chapterLoop env prompt data_context plan.2 final_titles 0 with
          | (none, evs4) => (none, evs0 ++ evs1 ++ evs2 ++ evs3 ++ evs4)
          | (some chapters_data, evs4) =>
            (some { swapi_call_text := "User Prompt: " ++ prompt,
                    swapi_json_output := env.jsonDump data_context,
                    preface_text := PREFACE_TEXT,
                    prologue_text := prologue_text,
                    epilogue_text := epilogue_text,
                    chapters := chapters_data },
             evs0 ++ evs1 ++ evs2 ++ evs3 ++ evs4)

/-- `sanitize_filename` of `app/main.py`. -/
def sanitize_filename (text : String) : String :=
  let removed := String.mk (text.toList.filter
    (fun c => !(['\\', '/', '*', '?', ':', '"', '<', '>', '|'].contains c)))
  pyReplaceChar ' ' '_' (pyStrip (removed.take 50))

/-- The response of the `/generate-book/` endpoint, as the client sees it:
success payload, the 400 on an empty prompt, or the catch-all 500. -/
inductive ApiResult where
  | ok (title prompt pdf_file preview : String)
  | badRequest
  | internalError
deriving DecidableEq

/-- `generate_star_wars_book` of `app/main.py` (lines 48-93): the request
handler.  Any exception escaping the pipeline is caught by the outer
`try`/`except` and surfaced as the 500 internal-error response; the PDF is
only written (the `pdfSave` event) after the whole Book is assembled. -/
def generate_star_wars_book (env : Services Ctx) (user_input : String)
    (num_pages : ℤ) : ApiResult × List CallEvent :=
  let user_prompt := pyStrip user_input
  if user_prompt = "" then (ApiResult.badRequest, [])
  else
    let final_page_count := min num_pages 100
    match generate_book_title env user_prompt with
    | (none, evs) => (ApiResult.internalError, evs)
    | (some raw_title, evs) =>
      let book_title := pyStrip (pyRemoveChar '#' raw_title)
      match generate_user_prompt_driven_book env user_prompt final_page_count with
      | (none, bevs) => (ApiResult.internalError, evs ++ bevs)
      | (some book_data, bevs) =>
        let filename := sanitize_filename book_title ++ ".pdf"
        let pdf_url := "/generated_books/" ++ filename
        (ApiResult.ok book_title user_prompt pdf_url
          (book_data.prologue_text.take 1500 ++ "..."),
         evs ++ bevs ++ [CallEvent.pdfSave filename])

/-- Is the event a body-text generation call? -/
def CallEvent.isSection : CallEvent → Bool
  | .sectionCall _ _ _ => true
  | _ => false

/-- Is the event a summarization call? -/
def CallEvent.isSummary : CallEvent → Bool
  | .summaryCall _ => true
  | _ => false

/-- Number of body-text generation calls in a trace. -/
def numSectionCalls (evs : List CallEvent) : Nat := evs.countP CallEvent.isSection

/-- Number of summarization calls in a trace. -/
def numSummaryCalls (evs : List CallEvent) : Nat := evs.countP CallEvent.isSummary

/-! ## Helper lemmas about the Budget Planner -/

theorem calc_fst_eq (p : ℤ) :
    (calculate_book_parameters p).1 = max 1 (min 12 (pyRound (p - 27) 7)) := rfl

theorem chapters_needed_bounds (p : ℤ) :
    1 ≤ (calculate_book_parameters p).1 ∧ (calculate_book_parameters p).1 ≤ 12 := by
  rw [calc_fst_eq]
  omega

theorem calc_snd_eq (p : ℤ) :
    (calculate_book_parameters p).2 =
      max 1 (p - 27 - max 1 (min 12 (pyRound (p - 27) 7)) * 2) * 250 /
        max 1 (min 12 (pyRound (p - 27) 7)) := by
  simp only [calculate_book_parameters, FIXED_FRONT_MATTER, WORDS_PER_PAGE,
    OVERHEAD_PAGES_PER_CHAPTER]
  split_ifs with h
  · norm_num
  · exfalso
    omega

theorem target_words_pos (p : ℤ) : 0 < (calculate_book_parameters p).2 := by
  rw [calc_snd_eq]
  have hc1 : (1 : ℤ) ≤ max 1 (min 12 (pyRound (p - 27) 7)) := le_max_left _ _
  have hc12 : max 1 (min 12 (pyRound (p - 27) 7)) ≤ 12 := by omega
  have hn : (1 : ℤ) ≤ max 1 (p - 27 - max 1 (min 12 (pyRound (p - 27) 7)) * 2) :=
    le_max_left _ _
  have h :=
    (Int.le_ediv_iff_mul_le (b := max 1 (p - 27 - max 1 (min 12 (pyRound (p - 27) 7)) * 2) * 250)
      (a := 1) (show (0 : ℤ) < max 1 (min 12 (pyRound (p - 27) 7)) by omega)).mpr
      (by nlinarith)
  omega

theorem pyRound_7_mono {a b : ℤ} (h : a ≤ b) : pyRound a 7 ≤ pyRound b 7 := by
  simp only [pyRound]
  split_ifs <;> omega

theorem pyRound_750_ge_one {wt : ℤ} (h : 750 < wt) : 1 ≤ pyRound wt 750 := by
  simp only [pyRound]
  split_ifs <;> omega


/-! ## Helper lemmas about traces of the content-block routine -/

theorem isSection_sectionCall (t s : String) (w : ℤ) :
    (CallEvent.sectionCall t s w).isSection = true := rfl

theorem isSection_summaryCall (x : String) :
    (CallEvent.summaryCall x).isSection = false := rfl

theorem isSummary_sectionCall (t s : String) (w : ℤ) :
    (CallEvent.sectionCall t s w).isSummary = false := rfl

theorem isSummary_summaryCall (x : String) :
    (CallEvent.summaryCall x).isSummary = true := rfl

theorem numSectionCalls_cons (e : CallEvent) (evs : List CallEvent) :
    numSectionCalls (e :: evs) =
      numSectionCalls evs + (if e.isSection then 1 else 0) := by
  simp [numSectionCalls, List.countP_cons]

theorem numSummaryCalls_cons (e : CallEvent) (evs : List CallEvent) :
    numSummaryCalls (e :: evs) =
      numSummaryCalls evs + (if e.isSummary then 1 else 0) := by
  simp [numSummaryCalls, List.countP_cons]

theorem sectionLoop_one_none {env : Services Ctx} {prompt title s : String} {ctx : Ctx}
    (h : env.sectionResp prompt title s ctx WORDS_PER_SECTION_TARGET = none) :
    sectionLoop env prompt title ctx s 1 =
      (none, [CallEvent.sectionCall title s WORDS_PER_SECTION_TARGET]) := by
  simp [sectionLoop, generate_chapter_section, h]

theorem sectionLoop_one_some {env : Services Ctx} {prompt title s t : String} {ctx : Ctx}
    (h : env.sectionResp prompt title s ctx WORDS_PER_SECTION_TARGET = some t) :
    sectionLoop env prompt title ctx s 1 =
      (some [pyStrip t], [CallEvent.sectionCall title s WORDS_PER_SECTION_TARGET]) := by
  simp [sectionLoop, generate_chapter_section, h]

theorem sectionLoop_succ2_none {env : Services Ctx} {prompt title s : String} {ctx : Ctx}
    (n : Nat) (h : env.sectionResp prompt title s ctx WORDS_PER_SECTION_TARGET = none) :
    sectionLoop env prompt title ctx s (n + 2) =
      (none, [CallEvent.sectionCall title s WORDS_PER_SECTION_TARGET]) := by
  simp [sectionLoop, generate_chapter_section, h]

theorem sectionLoop_succ2_some {env : Services Ctx} {prompt title s t : String} {ctx : Ctx}
    (n : Nat) (h : env.sectionResp prompt title s ctx WORDS_PER_SECTION_TARGET = some t) :
    sectionLoop env prompt title ctx s (n + 2) =
      ((sectionLoop env prompt title ctx
          (summarize_section env (pyStrip t)).1 (n + 1)).1.map (pyStrip t :: ·),
       CallEvent.sectionCall title s WORDS_PER_SECTION_TARGET ::
         (CallEvent.summaryCall (pyStrip t) ::
           (sectionLoop env prompt title ctx
             (summarize_section env (pyStrip t)).1 (n + 1)).2)) := by
  simp [sectionLoop, generate_chapter_section, summarize_section, h]

theorem sectionLoop_trace_ne_nil (env : Services Ctx) (prompt title : String)
    (ctx : Ctx) (s : String) (m : Nat) :
    (sectionLoop env prompt title ctx s (m + 1)).2 ≠ [] := by
  rcases m with _ | m2
  · rcases h : env.sectionResp prompt title s ctx WORDS_PER_SECTION_TARGET with _ | t
    · rw [sectionLoop_one_none h]
      simp
    · rw [sectionLoop_one_some h]
      simp
  · rcases h : env.sectionResp prompt title s ctx WORDS_PER_SECTION_TARGET with _ | t
    · rw [sectionLoop_succ2_none m2 h]
      simp
    · rw [sectionLoop_succ2_some m2 h]
      simp

theorem gcb_trace_ne_nil (env : Services Ctx) (prompt title : String) (ctx : Ctx)
    {wt : ℤ} (hwt : 0 < wt) :
    (generate_content_block env prompt title ctx wt).2 ≠ [] := by
  by_cases h1 : wt ≤ WORDS_PER_SECTION_TARGET
  · simp [generate_content_block, generate_chapter_section,
      show ¬ wt ≤ 0 by omega, h1]
  · have h750 : (750 : ℤ) < wt := by
      have := h1
      simp only [WORDS_PER_SECTION_TARGET] at this
      omega
    have hge : 1 ≤ pyRound wt WORDS_PER_SECTION_TARGET := by
      simp only [WORDS_PER_SECTION_TARGET]
      exact pyRound_750_ge_one h750
    obtain ⟨m, hm⟩ : ∃ m, (pyRound wt WORDS_PER_SECTION_TARGET).toNat = m + 1 :=
      ⟨(pyRound wt WORDS_PER_SECTION_TARGET).toNat - 1, by omega⟩
    simp only [generate_content_block, show ¬ wt ≤ 0 by omega, h1, hm,
      if_false, ite_false]
    exact sectionLoop_trace_ne_nil env prompt title ctx _ m

/-! ## Concrete service oracles used by witnesses and counterexamples -/

/-- An oracle on which every external call succeeds: sections echo the
continuity summary they received, the chapter-titles reply parses to exactly
one numbered title. -/
def envA : Services Unit where
  sectionResp := fun _ _ s _ _ => some ("S:" ++ s)
  summaryResp := fun _ => some "A short summary."
  titleResp := fun _ => some "\"A Title\""
  titlesResp := fun _ _ _ => some "1. Alpha"
  selectResp := some (some ())
  emptyCtx := ()
  jsonDump := fun _ => "selected"
  imagePromptResp := fun _ => some "A safe prompt"
  imageResp := fun _ => some "img-url-1"
  downloadResp := fun _ => some ()
  imageName := fun _ => "AbCdEfGhIjKl"

/-- `envA`, but every summarization call raises. -/
def envB : Services Unit := { envA with summaryResp := fun _ => none }

/-- `envA`, but every body-text generation call raises. -/
def envC : Services Unit := { envA with sectionResp := fun _ _ _ _ _ => none }

/-- `envA`, but sections come back as a fixed short text and every
summarization call raises. -/
def envE : Services Unit :=
  { envA with sectionResp := fun _ _ _ _ _ => some "sect",
              summaryResp := fun _ => none }

/-- `envA`, but every image download raises. -/
def envD : Services Unit := { envA with downloadResp := fun _ => none }

/-! ## Claims about the Budget Planner -/

/-- C7: for every page count the clamped request surface can supply (the
handler clamps the request to at most 100 pages), `calculate_book_parameters`
— a pure function of the page count — returns a chapter count in `[1, 12]`
and a non-negative per-chapter word target. -/
theorem c7_plan_bounds (p : ℤ) (hp : p ≤ 100) :
    1 ≤ (calculate_book_parameters p).1 ∧ (calculate_book_parameters p).1 ≤ 12 ∧
      0 ≤ (calculate_book_parameters p).2 := by
  obtain ⟨h1, h2⟩ := chapters_needed_bounds p
  exact ⟨h1, h2, le_of_lt (target_words_pos p)⟩

theorem c7_plan_bounds_witness :
    (100 : ℤ) ≤ 100 ∧
      (1 ≤ (calculate_book_parameters 100).1 ∧ (calculate_book_parameters 100).1 ≤ 12 ∧
        0 ≤ (calculate_book_parameters 100).2) :=
  ⟨by decide, c7_plan_bounds 100 (by decide)⟩

/-- C8: the chapter count of `calculate_book_parameters` is monotonically
non-decreasing in the requested page count and never exceeds the cap 12. -/
theorem c8_chapter_count_monotone (p1 p2 : ℤ) (h : p1 ≤ p2) :
    (calculate_book_parameters p1).1 ≤ (calculate_book_parameters p2).1 ∧
      (calculate_book_parameters p2).1 ≤ 12 := by
  rw [calc_fst_eq, calc_fst_eq]
  have := pyRound_7_mono (show p1 - 27 ≤ p2 - 27 by omega)
  omega

theorem c8_chapter_count_monotone_witness :
    (30 : ℤ) ≤ 80 ∧
      ((calculate_book_parameters 30).1 ≤ (calculate_book_parameters 80).1 ∧
        (calculate_book_parameters 80).1 ≤ 12) :=
  ⟨by decide, c8_chapter_count_monotone 30 80 (by decide)⟩

/-- C10: for every integer page count, the planner returns a strictly
positive per-chapter word target, so the `word_target <= 0` skip branch of
`generate_content_block` (which would return empty text with no calls) is
never taken for a chapter body whose target comes from the planner: on such
targets the block always issues at least one external call. -/
theorem c10_planner_target_positive (p : ℤ) :
    0 < (calculate_book_parameters p).2 ∧
      ∀ (C : Type) (env : Services C) (prompt title : String) (ctx : C),
        (generate_content_block env prompt title ctx
          (calculate_book_parameters p).2).2 ≠ [] :=
  ⟨target_words_pos p,
   fun _ env prompt title ctx => gcb_trace_ne_nil env prompt title ctx (target_words_pos p)⟩

/-- C4: a non-positive word target returns empty text immediately, with no
external call of any kind. -/
theorem c4_nonpositive_target_skips {C : Type} (env : Services C)
    (prompt title : String) (ctx : C) (wt : ℤ) (h : wt ≤ 0) :
    generate_content_block env prompt title ctx wt = (some "", []) := by
  simp [generate_content_block, h]

theorem c4_nonpositive_target_skips_witness :
    (0 : ℤ) ≤ 0 ∧ generate_content_block envA "a prompt" "Preface" () 0 = (some "", []) :=
  ⟨by decide, c4_nonpositive_target_skips envA "a prompt" "Preface" () 0 (by decide)⟩

/-- C6, counterexample: at `requestedPages = 27` the chapter-count division
rounds to 0, and the planner does floor the chapter count to 1 — but it
returns `targetWordsPerChapter = 250`, not 0, because the content-page count
is itself floored to 1 before the word total is computed. -/
theorem c6_zero_round_counterexample :
    pyRound ((27 : ℤ) - 27) 7 = 0 ∧ calculate_book_parameters 27 = (1, 250) ∧
      (calculate_book_parameters 27).2 ≠ 0 := by decide

/-- C6, amended: whenever the chapter-count division rounds to 0 (or below),
`calculate_book_parameters` returns `chapterCount = 1` and
`targetWordsPerChapter = 250 * max 1 (requestedPages - 29)` — a strictly
positive target (250 at `requestedPages = 27`), so the pipeline's 0-word
skip-generation branch is never exercised for it. -/
theorem c6_zero_round_amended (p : ℤ) (h : pyRound (p - 27) 7 ≤ 0) :
    (calculate_book_parameters p).1 = 1 ∧
      (calculate_book_parameters p).2 = max 1 (p - 29) * 250 ∧
      0 < (calculate_book_parameters p).2 := by
  have h1 : (calculate_book_parameters p).1 = 1 := by
    rw [calc_fst_eq]
    omega
  refine ⟨h1, ?_, target_words_pos p⟩
  rw [calc_snd_eq]
  have hmx : max 1 (min 12 (pyRound (p - 27) 7)) = 1 := by omega
  rw [hmx, Int.ediv_one]
  omega

theorem c6_zero_round_amended_witness :
    pyRound ((27 : ℤ) - 27) 7 ≤ 0 ∧
      ((calculate_book_parameters 27).1 = 1 ∧
        (calculate_book_parameters 27).2 = max 1 ((27 : ℤ) - 29) * 250 ∧
        0 < (calculate_book_parameters 27).2) :=
  ⟨by decide, c6_zero_round_amended 27 (by decide)⟩


/-! ## Claims about the multi-section path of the content-block routine -/

theorem sectionLoop_success_spec (env : Services Ctx) (prompt title : String) (ctx : Ctx)
    (H : ∀ s, env.sectionResp prompt title s ctx WORDS_PER_SECTION_TARGET ≠ none) :
    ∀ (n : Nat) (s : String),
      ∃ ps evs, sectionLoop env prompt title ctx s n = (some ps, evs) ∧
        ps.length = n ∧ numSectionCalls evs = n ∧ numSummaryCalls evs = n - 1 := by
  intro n
  induction n with
  | zero =>
    intro s
    exact ⟨[], [], rfl, rfl, rfl, rfl⟩
  | succ m ih =>
    intro s
    rcases h : env.sectionResp prompt title s ctx WORDS_PER_SECTION_TARGET with _ | t
    · exact absurd h (H s)
    · rcases m with _ | m2
      · exact ⟨[pyStrip t], [CallEvent.sectionCall title s WORDS_PER_SECTION_TARGET],
          sectionLoop_one_some h, rfl, rfl, rfl⟩
      · obtain ⟨ps, evs, hloop, hlen, hsec, hsum⟩ :=
          ih ((summarize_section env (pyStrip t)).1)
        refine ⟨pyStrip t :: ps,
          CallEvent.sectionCall title s WORDS_PER_SECTION_TARGET ::
            (CallEvent.summaryCall (pyStrip t) :: evs), ?_, ?_, ?_, ?_⟩
        · rw [sectionLoop_succ2_some m2 h, hloop]
          rfl
        · simp [hlen]
        · rw [numSectionCalls_cons, numSectionCalls_cons, hsec,
            isSection_sectionCall, isSection_summaryCall]
          simp
        · rw [numSummaryCalls_cons, numSummaryCalls_cons, hsum,
            isSummary_sectionCall, isSummary_summaryCall]
          simp

theorem gcb_multi_spec (env : Services Ctx) (prompt title : String) (ctx : Ctx)
    (wt : ℤ) (hwt : WORDS_PER_SECTION_TARGET < wt)
    (H : ∀ s, env.sectionResp prompt title s ctx WORDS_PER_SECTION_TARGET ≠ none) :
    1 ≤ (pyRound wt WORDS_PER_SECTION_TARGET).toNat ∧
      numSectionCalls (generate_content_block env prompt title ctx wt).2 =
        (pyRound wt WORDS_PER_SECTION_TARGET).toNat ∧
      numSummaryCalls (generate_content_block env prompt title ctx wt).2 =
        (pyRound wt WORDS_PER_SECTION_TARGET).toNat - 1 ∧
      ∃ ps : List String, ps.length = (pyRound wt WORDS_PER_SECTION_TARGET).toNat ∧
        (generate_content_block env prompt title ctx wt).1 =
          some (String.intercalate "\n\n" ps) := by
  have h750 : (750 : ℤ) < wt := by
    have := hwt
    simp only [WORDS_PER_SECTION_TARGET] at this
    omega
  have hge : 1 ≤ pyRound wt WORDS_PER_SECTION_TARGET := by
    simp only [WORDS_PER_SECTION_TARGET]
    exact pyRound_750_ge_one h750
  obtain ⟨ps, evs, hloop, hlen, hsec, hsum⟩ :=
    sectionLoop_success_spec env prompt title ctx H
      (pyRound wt WORDS_PER_SECTION_TARGET).toNat
      ("The section is '" ++ title ++ "'. Set the scene and begin the narrative.")
  have hgcb : generate_content_block env prompt title ctx wt =
      (some (String.intercalate "\n\n" ps), evs) := by
    simp [generate_content_block, show ¬ wt ≤ 0 by omega, not_le.mpr hwt, hloop]
  rw [hgcb]
  exact ⟨by omega, hsec, hsum, ps, hlen, rfl⟩

/-- The continuity summary the next section call receives after the sections
with raw model replies `rs` have been generated, starting from the summary
`s`: the spec's ContinuitySummary, updated by `summarize_section` on each
stripped reply.  (Within a run, the last section's summary is never
computed; `runningSummary` applied to a strict prefix of the replies is the
summary the following call receives.) -/
def runningSummary (env : Services Ctx) : String → List String → String
  | s, [] => s
  | s, r :: rest => runningSummary env ((summarize_section env (pyStrip r)).1) rest

theorem sectionLoop_chain_spec (env : Services Ctx) (prompt title : String) (ctx : Ctx) :
    ∀ (rs : List String) (s : String),
      (∀ (i : Nat) (h : i < rs.length), env.sectionResp prompt title
        (runningSummary env s (rs.take i)) ctx WORDS_PER_SECTION_TARGET = some rs[i]) →
      (sectionLoop env prompt title ctx s rs.length).1 = some (rs.map pyStrip) := by
  intro rs
  induction rs with
  | nil =>
    intro _s _
    rfl
  | cons r rest ih =>
    intro s Hc
    have h0 : env.sectionResp prompt title s ctx WORDS_PER_SECTION_TARGET = some r := by
      have := Hc 0 (by simp)
      simpa [runningSummary] using this
    rcases rest with _ | ⟨r2, rest2⟩
    · simp only [List.length_cons, List.length_nil, Nat.zero_add]
      rw [sectionLoop_one_some h0]
      rfl
    · have Hc2 : ∀ (i : Nat) (h : i < (r2 :: rest2).length), env.sectionResp prompt title
          (runningSummary env ((summarize_section env (pyStrip r)).1)
            ((r2 :: rest2).take i)) ctx WORDS_PER_SECTION_TARGET =
            some (r2 :: rest2)[i] := by
        intro i h
        have h2 : i + 1 < (r :: r2 :: rest2).length := by
          simpa using Nat.succ_lt_succ h
        have := Hc (i + 1) h2
        simpa [runningSummary] using this
      have hih := ih ((summarize_section env (pyStrip r)).1) Hc2
      simp only [List.length_cons] at hih ⊢
      rw [show rest2.length + 1 + 1 = rest2.length + 2 from rfl,
        sectionLoop_succ2_some rest2.length h0]
      simp [hih]

theorem gcb_parts_in_order (env : Services Ctx) (prompt title : String) (ctx : Ctx)
    (wt : ℤ) (rs : List String) (hwt : WORDS_PER_SECTION_TARGET < wt)
    (hlen : rs.length = (pyRound wt WORDS_PER_SECTION_TARGET).toNat)
    (Hc : ∀ (i : Nat) (h : i < rs.length), env.sectionResp prompt title
      (runningSummary env
        ("The section is '" ++ title ++ "'. Set the scene and begin the narrative.")
        (rs.take i)) ctx WORDS_PER_SECTION_TARGET = some rs[i]) :
    (generate_content_block env prompt title ctx wt).1 =
      some (String.intercalate "\n\n" (rs.map pyStrip)) := by
  have h0 : ¬ wt ≤ 0 := by
    have := hwt
    simp only [WORDS_PER_SECTION_TARGET] at this
    omega
  have hchain := sectionLoop_chain_spec env prompt title ctx rs
    ("The section is '" ++ title ++ "'. Set the scene and begin the narrative.") Hc
  simp only [generate_content_block, h0, not_le.mpr hwt, if_false, ite_false, ← hlen]
  rw [hchain]
  rfl

/-- C2: for every word target strictly above the 750-word section ceiling,
`generate_content_block` (the pipeline's `generateUnit`) issues exactly
`round(wordTarget / 750)` section-generation calls (at least one), one fewer
summarization call than section calls, and returns exactly the stripped
replies of those section calls, in generation order, joined by a blank-line
separator: `rs` is pinned to be the run's replies by the hypothesis that the
i-th call — whose continuity summary is the running summary after the first
`i` replies — returns `rs i`.  In particular exactly 1 section call for
target 800, and 3 section calls with 2 summarization calls for target
2000. -/
theorem c2_multi_section_counts {C : Type} (env : Services C) (prompt title : String)
    (ctx : C) (wt : ℤ) (rs : List String) (hwt : WORDS_PER_SECTION_TARGET < wt)
    (H : ∀ s, env.sectionResp prompt title s ctx WORDS_PER_SECTION_TARGET ≠ none)
    (hlen : rs.length = (pyRound wt WORDS_PER_SECTION_TARGET).toNat)
    (Hc : ∀ (i : Nat) (h : i < rs.length), env.sectionResp prompt title
      (runningSummary env
        ("The section is '" ++ title ++ "'. Set the scene and begin the narrative.")
        (rs.take i)) ctx WORDS_PER_SECTION_TARGET = some rs[i]) :
    (1 ≤ (pyRound wt WORDS_PER_SECTION_TARGET).toNat ∧
      numSectionCalls (generate_content_block env prompt title ctx wt).2 =
        (pyRound wt WORDS_PER_SECTION_TARGET).toNat ∧
      numSummaryCalls (generate_content_block env prompt title ctx wt).2 =
        (pyRound wt WORDS_PER_SECTION_TARGET).toNat - 1 ∧
      (generate_content_block env prompt title ctx wt).1 =
        some (String.intercalate "\n\n" (rs.map pyStrip))) ∧
    pyRound 800 WORDS_PER_SECTION_TARGET = 1 ∧
    pyRound 2000 WORDS_PER_SECTION_TARGET = 3 ∧
    numSectionCalls (generate_content_block env prompt title ctx 800).2 = 1 ∧
    numSectionCalls (generate_content_block env prompt title ctx 2000).2 = 3 ∧
    numSummaryCalls (generate_content_block env prompt title ctx 2000).2 = 2 := by
  obtain ⟨h1, h2, h3, _⟩ := gcb_multi_spec env prompt title ctx wt hwt H
  refine ⟨⟨h1, h2, h3, gcb_parts_in_order env prompt title ctx wt rs hwt hlen Hc⟩,
    by decide, by decide, ?_, ?_, ?_⟩
  · have h := (gcb_multi_spec env prompt title ctx 800 (by decide) H).2.1
    simpa [show (pyRound 800 WORDS_PER_SECTION_TARGET).toNat = 1 by decide] using h
  · have h := (gcb_multi_spec env prompt title ctx 2000 (by decide) H).2.1
    simpa [show (pyRound 2000 WORDS_PER_SECTION_TARGET).toNat = 3 by decide] using h
  · have h := (gcb_multi_spec env prompt title ctx 2000 (by decide) H).2.2.1
    simpa [show (pyRound 2000 WORDS_PER_SECTION_TARGET).toNat = 3 by decide] using h

theorem c2_multi_section_counts_witness :
    (WORDS_PER_SECTION_TARGET < (2000 : ℤ) ∧
      (["sect", "sect", "sect"] : List String).length =
        (pyRound 2000 WORDS_PER_SECTION_TARGET).toNat) ∧
    ((1 ≤ (pyRound 2000 WORDS_PER_SECTION_TARGET).toNat ∧
      numSectionCalls (generate_content_block envE "p" "T" () 2000).2 =
        (pyRound 2000 WORDS_PER_SECTION_TARGET).toNat ∧
      numSummaryCalls (generate_content_block envE "p" "T" () 2000).2 =
        (pyRound 2000 WORDS_PER_SECTION_TARGET).toNat - 1 ∧
      (generate_content_block envE "p" "T" () 2000).1 =
        some (String.intercalate "\n\n"
          ((["sect", "sect", "sect"] : List String).map pyStrip))) ∧
    pyRound 800 WORDS_PER_SECTION_TARGET = 1 ∧
    pyRound 2000 WORDS_PER_SECTION_TARGET = 3 ∧
    numSectionCalls (generate_content_block envE "p" "T" () 800).2 = 1 ∧
    numSectionCalls (generate_content_block envE "p" "T" () 2000).2 = 3 ∧
    numSummaryCalls (generate_content_block envE "p" "T" () 2000).2 = 2) :=
  ⟨⟨by decide, by decide⟩,
   c2_multi_section_counts envE "p" "T" () 2000 ["sect", "sect", "sect"]
     (by decide) (fun s => by simp [envE, envA]) (by decide)
     (fun i h => by
       have h3 : i < 3 := by simpa using h
       interval_cases i <;> rfl)⟩

/-- C3: when an intermediate summarization call fails in the 3-section run at
target 2000, the run does not abort: `summarize_section` returns the first
300 characters of the just-generated section text followed by an ellipsis
marker, and the next section-generation call receives exactly that fallback
string as its continuity summary (visible in the trace below), while the
block still returns all three parts joined by blank lines. -/
theorem c3_summary_fallback {C : Type} (env : Services C) (prompt title : String)
    (ctx : C) (r1 r2 r3 : String)
    (H1 : env.sectionResp prompt title
      ("The section is '" ++ title ++ "'. Set the scene and begin the narrative.") ctx
      WORDS_PER_SECTION_TARGET = some r1)
    (H2 : env.summaryResp (pyStrip r1) = none)
    (H3 : env.sectionResp prompt title ((pyStrip r1).take 300 ++ "...") ctx
      WORDS_PER_SECTION_TARGET = some r2)
    (H4 : env.summaryResp (pyStrip r2) = none)
    (H5 : env.sectionResp prompt title ((pyStrip r2).take 300 ++ "...") ctx
      WORDS_PER_SECTION_TARGET = some r3) :
    summarize_section env (pyStrip r1) =
      ((pyStrip r1).take 300 ++ "...", [CallEvent.summaryCall (pyStrip r1)]) ∧
    generate_content_block env prompt title ctx 2000 =
      (some (String.intercalate "\n\n" [pyStrip r1, pyStrip r2, pyStrip r3]),
       [CallEvent.sectionCall title
          ("The section is '" ++ title ++ "'. Set the scene and begin the narrative.")
          WORDS_PER_SECTION_TARGET,
        CallEvent.summaryCall (pyStrip r1),
        CallEvent.sectionCall title ((pyStrip r1).take 300 ++ "...")
          WORDS_PER_SECTION_TARGET,
        CallEvent.summaryCall (pyStrip r2),
        CallEvent.sectionCall title ((pyStrip r2).take 300 ++ "...")
          WORDS_PER_SECTION_TARGET]) := by
  have hs1 : (summarize_section env (pyStrip r1)).1 = (pyStrip r1).take 300 ++ "..." := by
    simp [summarize_section, H2]
  have hs2 : (summarize_section env (pyStrip r2)).1 = (pyStrip r2).take 300 ++ "..." := by
    simp [summarize_section, H4]
  constructor
  · simp [summarize_section, H2]
  · have h3 : (pyRound 2000 WORDS_PER_SECTION_TARGET).toNat = 3 := by decide
    have hloop : sectionLoop env prompt title ctx
        ("The section is '" ++ title ++ "'. Set the scene and begin the narrative.") 3 =
        (some [pyStrip r1, pyStrip r2, pyStrip r3],
         [CallEvent.sectionCall title
            ("The section is '" ++ title ++ "'. Set the scene and begin the narrative.")
            WORDS_PER_SECTION_TARGET,
          CallEvent.summaryCall (pyStrip r1),
          CallEvent.sectionCall title ((pyStrip r1).take 300 ++ "...")
            WORDS_PER_SECTION_TARGET,
          CallEvent.summaryCall (pyStrip r2),
          CallEvent.sectionCall title ((pyStrip r2).take 300 ++ "...")
            WORDS_PER_SECTION_TARGET]) := by
      rw [show (3 : Nat) = 1 + 2 from rfl, sectionLoop_succ2_some 1 H1, hs1]
      rw [show (1 : Nat) + 1 = 0 + 2 from rfl, sectionLoop_succ2_some 0 H3, hs2]
      rw [show (0 : Nat) + 1 = 1 from rfl, sectionLoop_one_some H5]
      rfl
    simp only [generate_content_block, show ¬ (2000 : ℤ) ≤ 0 by decide,
      show ¬ (2000 : ℤ) ≤ WORDS_PER_SECTION_TARGET by decide, if_false, ite_false, h3,
      hloop]
    rfl

theorem c3_summary_fallback_witness :
    (envE.sectionResp "p" "T"
        ("The section is '" ++ "T" ++ "'. Set the scene and begin the narrative.") ()
        WORDS_PER_SECTION_TARGET = some "sect") ∧
    (summarize_section envE (pyStrip "sect") =
      ((pyStrip "sect").take 300 ++ "...",
       [CallEvent.summaryCall (pyStrip "sect")])) ∧
    (generate_content_block envE "p" "T" () 2000).1 =
      some (String.intercalate "\n\n" [pyStrip "sect", pyStrip "sect", pyStrip "sect"]) :=
  ⟨rfl,
   (c3_summary_fallback envE "p" "T" () "sect" "sect" "sect"
      rfl rfl rfl rfl rfl).1,
   by rw [(c3_summary_fallback envE "p" "T" () "sect" "sect" "sect"
      rfl rfl rfl rfl rfl).2]⟩


/-! ## Helper lemmas about the whole pipeline run -/

theorem select_pair (env : Services Ctx) :
    select_book_data_context env =
      ((select_book_data_context env).1, [CallEvent.selectCall]) := rfl

theorem titles_pair (env : Services Ctx) (prompt : String) (ctx : Ctx) (k : ℤ) :
    generate_chapter_titles env prompt ctx k =
      ((generate_chapter_titles env prompt ctx k).1, [CallEvent.titlesCall k]) := rfl

theorem select_some_of_ne_none (env : Services Ctx) (h : env.selectResp ≠ none) :
    ∃ dc, (select_book_data_context env).1 = some dc := by
  rcases hr : env.selectResp with _ | oc
  · exact absurd hr h
  · rcases oc with _ | c
    · exact ⟨env.emptyCtx, by simp [select_book_data_context, hr]⟩
    · exact ⟨c, by simp [select_book_data_context, hr]⟩

theorem titles_some_ne_nil (env : Services Ctx) (prompt : String) (ctx : Ctx) (k : ℤ)
    (hk : 1 ≤ k) (h : env.titlesResp prompt ctx k ≠ none) :
    ∃ l, (generate_chapter_titles env prompt ctx k).1 = some l ∧ l ≠ [] := by
  rcases hr : env.titlesResp prompt ctx k with _ | content
  · exact absurd hr h
  · refine ⟨if (parseNumberedTitles content).isEmpty then
        (List.range k.toNat).map (fun i => "Chapter " ++ toString (i + 1))
      else parseNumberedTitles content, by simp [generate_chapter_titles, hr], ?_⟩
    split_ifs with he
    · have hk0 : k.toNat ≠ 0 := by omega
      intro hc
      rw [List.map_eq_nil_iff, List.range_eq_nil] at hc
      exact hk0 hc
    · intro hc
      rw [hc] at he
      simp at he

theorem titles_ne_nil_of_some (env : Services Ctx) (prompt : String) (ctx : Ctx)
    (k : ℤ) (hk : 1 ≤ k) {l : List String}
    (h : (generate_chapter_titles env prompt ctx k).1 = some l) : l ≠ [] := by
  rcases hr : env.titlesResp prompt ctx k with _ | content
  · simp [generate_chapter_titles, hr] at h
  · simp only [generate_chapter_titles, hr] at h
    obtain rfl := Option.some.inj h
    split_ifs with he
    · have hk0 : k.toNat ≠ 0 := by omega
      intro hc
      rw [List.map_eq_nil_iff, List.range_eq_nil] at hc
      exact hk0 hc
    · intro hc
      rw [hc] at he
      simp at he

theorem take_ne_nil_of_ne_nil {α : Type} {l : List α} (h : l ≠ []) {n : Nat}
    (hn : 1 ≤ n) : l.take n ≠ [] := by
  rcases l with _ | ⟨x, xs⟩
  · exact absurd rfl h
  · rcases n with _ | m
    · omega
    · simp

theorem gcb_some (env : Services Ctx) (prompt title : String) (ctx : Ctx) (wt : ℤ)
    (H : ∀ s w, env.sectionResp prompt title s ctx w ≠ none) :
    ∃ txt, (generate_content_block env prompt title ctx wt).1 = some txt := by
  by_cases h0 : wt ≤ 0
  · exact ⟨"", by simp [generate_content_block, h0]⟩
  · by_cases h1 : wt ≤ WORDS_PER_SECTION_TARGET
    · rcases hr : env.sectionResp prompt title "Start of the section." ctx wt with _ | t
      · exact absurd hr (H _ _)
      · exact ⟨pyStrip t,
          by simp [generate_content_block, h0, h1, generate_chapter_section, hr]⟩
    · obtain ⟨_, _, _, ps, _, hres⟩ :=
        gcb_multi_spec env prompt title ctx wt (not_le.mp h1) (fun s => H s _)
      exact ⟨_, hres⟩

theorem gcb_none_of_fail (env : Services Ctx) (prompt title : String) (ctx : Ctx)
    (wt : ℤ) (hwt : 0 < wt)
    (Hfail : ∀ s w, env.sectionResp prompt title s ctx w = none) :
    (generate_content_block env prompt title ctx wt).1 = none := by
  by_cases h1 : wt ≤ WORDS_PER_SECTION_TARGET
  · simp [generate_content_block, show ¬ wt ≤ 0 by omega, h1,
      generate_chapter_section, Hfail]
  · have hge : 1 ≤ pyRound wt WORDS_PER_SECTION_TARGET := by
      have h750 : (750 : ℤ) < wt := by
        have := h1
        simp only [WORDS_PER_SECTION_TARGET] at this
        omega
      simp only [WORDS_PER_SECTION_TARGET]
      exact pyRound_750_ge_one h750
    obtain ⟨m, hm⟩ : ∃ m, (pyRound wt WORDS_PER_SECTION_TARGET).toNat = m + 1 :=
      ⟨(pyRound wt WORDS_PER_SECTION_TARGET).toNat - 1, by omega⟩
    simp only [generate_content_block, show ¬ wt ≤ 0 by omega, h1, if_false,
      ite_false, hm]
    rcases m with _ | m2
    · rw [sectionLoop_one_none (Hfail _ _)]
      rfl
    · rw [sectionLoop_succ2_none m2 (Hfail _ _)]
      rfl

theorem chapterLoop_head_fail (env : Services Ctx) (prompt : String) (ctx : Ctx)
    (tw : ℤ) (t : String) (ts : List String) (i : Nat)
    (hfail : (generate_content_block env prompt
      ("Chapter " ++ (toString (i + 1) ++ ": " ++ t)) ctx tw).1 = none) :
    (chapterLoop env prompt ctx tw (t :: ts) i).1 = none := by
  simp only [chapterLoop]
  rcases hg : generate_content_block env prompt
      ("Chapter " ++ (toString (i + 1) ++ ": " ++ t)) ctx tw with ⟨o, evs⟩
  rw [hg] at hfail
  rcases o with _ | txt
  · rfl
  · simp at hfail

theorem chapterLoop_length (env : Services Ctx) (prompt : String) (ctx : Ctx) (tw : ℤ) :
    ∀ (titles : List String) (i : Nat) (chs : List Chapter),
      (chapterLoop env prompt ctx tw titles i).1 = some chs →
        chs.length = titles.length := by
  intro titles
  induction titles with
  | nil =>
    intro i chs h
    simp only [chapterLoop] at h
    obtain rfl : ([] : List Chapter) = chs := Option.some.inj h
    rfl
  | cons t ts ih =>
    intro i chs h
    simp only [chapterLoop] at h
    rcases hg : generate_content_block env prompt
        ("Chapter " ++ (toString (i + 1) ++ ": " ++ t)) ctx tw with ⟨o, evs⟩
    rw [hg] at h
    rcases o with _ | txt
    · simp at h
    · rcases hrec : (chapterLoop env prompt ctx tw ts (i + 1)).1 with _ | chs2
      · rw [hrec] at h
        simp at h
      · rw [hrec] at h
        simp only [Option.map_some] at h
        obtain rfl := Option.some.inj h
        simp [ih (i + 1) chs2 hrec]

theorem chapterLoop_spec (env : Services Ctx) (prompt : String) (ctx : Ctx) (tw : ℤ)
    (Hsec : ∀ title s w, env.sectionResp prompt title s ctx w ≠ none) :
    ∀ (titles : List String) (i : Nat),
      ∃ chs, (chapterLoop env prompt ctx tw titles i).1 = some chs ∧
        chs.length = titles.length ∧
        ∀ ch ∈ chs, ∃ s, ch.image_path = (generate_chapter_image env s).1 := by
  intro titles
  induction titles with
  | nil => exact fun i => ⟨[], rfl, rfl, by simp⟩
  | cons t ts ih =>
    intro i
    obtain ⟨txt, htxt⟩ := gcb_some env prompt
      ("Chapter " ++ (toString (i + 1) ++ ": " ++ t)) ctx tw (fun s w => Hsec _ s w)
    obtain ⟨chs, hchs, hlen, himg⟩ := ih (i + 1)
    refine ⟨(⟨t, txt, (generate_chapter_image env (summarize_section env txt).1).1⟩ :
        Chapter) :: chs,
      ?_, by simp [hlen], ?_⟩
    · simp only [chapterLoop]
      rcases hg : generate_content_block env prompt
          ("Chapter " ++ (toString (i + 1) ++ ": " ++ t)) ctx tw with ⟨o, evs⟩
      rw [hg] at htxt
      obtain rfl : o = some txt := htxt
      simp [hchs]
    · intro ch hch
      rcases List.mem_cons.mp hch with rfl | hch2
      · exact ⟨(summarize_section env txt).1, rfl⟩
      · exact himg ch hch2

theorem image_none_of_stage_failure (env : Services Ctx)
    (Himg : (∀ s, env.imagePromptResp s = none) ∨ (∀ q, env.imageResp q = none) ∨
      (∀ u, env.downloadResp u = none)) :
    ∀ s, (generate_chapter_image env s).1 = none := by
  intro s
  rcases Himg with h | h | h
  · simp [generate_chapter_image, h s]
  · rcases hp : env.imagePromptResp s with _ | raw
    · simp [generate_chapter_image, hp]
    · simp [generate_chapter_image, hp, h]
  · rcases hp : env.imagePromptResp s with _ | raw
    · simp [generate_chapter_image, hp]
    · rcases hq : env.imageResp (pyStripChar '"' (pyStrip raw)) with _ | url
      · simp [generate_chapter_image, hp, hq]
      · simp [generate_chapter_image, hp, hq, h]


/-! ## The Document Assembler is only invoked after a full Book is built -/

theorem summarize_no_pdf (env : Services Ctx) (text : String) (f : String) :
    CallEvent.pdfSave f ∉ (summarize_section env text).2 := by
  simp [summarize_section]

theorem image_no_pdf (env : Services Ctx) (s : String) (f : String) :
    CallEvent.pdfSave f ∉ (generate_chapter_image env s).2 := by
  rcases hp : env.imagePromptResp s with _ | raw
  · simp [generate_chapter_image, hp]
  · rcases hq : env.imageResp (pyStripChar '"' (pyStrip raw)) with _ | url
    · simp [generate_chapter_image, hp, hq]
    · rcases hd : env.downloadResp url with _ | u
      · simp [generate_chapter_image, hp, hq, hd]
      · simp [generate_chapter_image, hp, hq, hd]

theorem sectionLoop_no_pdf (env : Services Ctx) (prompt title : String) (ctx : Ctx) :
    ∀ (n : Nat) (s : String) (f : String),
      CallEvent.pdfSave f ∉ (sectionLoop env prompt title ctx s n).2 := by
  intro n
  induction n with
  | zero =>
    intro s f
    simp [sectionLoop]
  | succ m ih =>
    intro s f
    rcases h : env.sectionResp prompt title s ctx WORDS_PER_SECTION_TARGET with _ | t
    · rcases m with _ | m2
      · rw [sectionLoop_one_none h]
        simp
      · rw [sectionLoop_succ2_none m2 h]
        simp
    · rcases m with _ | m2
      · rw [sectionLoop_one_some h]
        simp
      · rw [sectionLoop_succ2_some m2 h]
        simp only [List.mem_cons, not_or]
        exact ⟨by simp, by simp, ih _ f⟩

theorem gcb_no_pdf (env : Services Ctx) (prompt title : String) (ctx : Ctx) (wt : ℤ)
    (f : String) :
    CallEvent.pdfSave f ∉ (generate_content_block env prompt title ctx wt).2 := by
  by_cases h0 : wt ≤ 0
  · simp [generate_content_block, h0]
  · by_cases h1 : wt ≤ WORDS_PER_SECTION_TARGET
    · simp [generate_content_block, h0, h1, generate_chapter_section]
    · simp only [generate_content_block, h0, h1, if_false, ite_false]
      exact sectionLoop_no_pdf env prompt title ctx _ _ f

theorem chapterLoop_no_pdf (env : Services Ctx) (prompt : String) (ctx : Ctx) (tw : ℤ) :
    ∀ (titles : List String) (i : Nat) (f : String),
      CallEvent.pdfSave f ∉ (chapterLoop env prompt ctx tw titles i).2 := by
  intro titles
  induction titles with
  | nil =>
    intro i f
    simp [chapterLoop]
  | cons t ts ih =>
    intro i f
    have hevs := gcb_no_pdf env prompt ("Chapter " ++ (toString (i + 1) ++ ": " ++ t))
      ctx tw f
    simp only [chapterLoop]
    rcases hg : generate_content_block env prompt
        ("Chapter " ++ (toString (i + 1) ++ ": " ++ t)) ctx tw with ⟨o, evs⟩
    rw [hg] at hevs
    rcases o with _ | txt
    · exact hevs
    · simp only [List.mem_append, not_or]
      refine ⟨⟨⟨hevs, ?_⟩, ?_⟩, ih (i + 1) f⟩
      · exact summarize_no_pdf env txt f
      · exact image_no_pdf env _ f

theorem book_run_eq (env : Services Ctx) (prompt : String) (n : ℤ)
    {dc : Ctx} {ptext etext : String} {evp eve evt evc : List CallEvent}
    {titles : List String} {chs : List Chapter}
    (hdc : (select_book_data_context env).1 = some dc)
    (hpro : generate_content_block env prompt "Prologue" dc 250 = (some ptext, evp))
    (hepi : generate_content_block env prompt "Epilogue" dc 250 = (some etext, eve))
    (htl : generate_chapter_titles env prompt dc (calculate_book_parameters n).1 =
      (some titles, evt))
    (hcl : chapterLoop env prompt dc (calculate_book_parameters n).2
      (titles.take (calculate_book_parameters n).1.toNat) 0 = (some chs, evc)) :
    generate_user_prompt_driven_book env prompt n =
      (some ⟨"User Prompt: " ++ prompt, env.jsonDump dc, PREFACE_TEXT, ptext, etext, chs⟩,
       [CallEvent.selectCall] ++ evp ++ eve ++ evt ++ evc) := by
  simp only [generate_user_prompt_driven_book]
  rw [select_pair env, hdc]
  dsimp only
  rw [hpro]
  dsimp only
  rw [hepi]
  dsimp only
  rw [htl]
  dsimp only
  rw [hcl]

theorem book_no_pdf (env : Services Ctx) (prompt : String) (n : ℤ) (f : String) :
    CallEvent.pdfSave f ∉ (generate_user_prompt_driven_book env prompt n).2 := by
  simp only [generate_user_prompt_driven_book]
  rw [select_pair env]
  rcases hdc : (select_book_data_context env).1 with _ | dc
  · simp
  · dsimp only
    have hp1 : CallEvent.pdfSave f ∉ (generate_content_block env prompt "Prologue" dc 250).2 :=
      gcb_no_pdf env prompt "Prologue" dc 250 f
    rcases hpro : generate_content_block env prompt "Prologue" dc 250 with ⟨op, evp⟩
    rw [hpro] at hp1
    have hp1' : CallEvent.pdfSave f ∉ evp := hp1
    rcases op with _ | ptext
    · dsimp only
      simp [hp1']
    · dsimp only
      have hp2 : CallEvent.pdfSave f ∉ (generate_content_block env prompt "Epilogue" dc 250).2 :=
        gcb_no_pdf env prompt "Epilogue" dc 250 f
      rcases hepi : generate_content_block env prompt "Epilogue" dc 250 with ⟨oe, eve⟩
      rw [hepi] at hp2
      have hp2' : CallEvent.pdfSave f ∉ eve := hp2
      rcases oe with _ | etext
      · dsimp only
        simp [hp1', hp2']
      · dsimp only
        rw [titles_pair env prompt dc (calculate_book_parameters n).1]
        rcases htl : (generate_chapter_titles env prompt dc
            (calculate_book_parameters n).1).1 with _ | titles
        · dsimp only
          simp [hp1', hp2']
        · dsimp only
          have hp3 : CallEvent.pdfSave f ∉ (chapterLoop env prompt dc
              (calculate_book_parameters n).2
              (titles.take (calculate_book_parameters n).1.toNat) 0).2 :=
            chapterLoop_no_pdf env prompt dc (calculate_book_parameters n).2
              (titles.take (calculate_book_parameters n).1.toNat) 0 f
          rcases hcl : chapterLoop env prompt dc (calculate_book_parameters n).2
              (titles.take (calculate_book_parameters n).1.toNat) 0 with ⟨oc, evc⟩
          rw [hcl] at hp3
          have hp3' : CallEvent.pdfSave f ∉ evc := hp3
          rcases oc with _ | chs
          · dsimp only
            simp [hp1', hp2', hp3']
          · dsimp only
            simp [hp1', hp2', hp3']

theorem book_none_of_chapter_fail (env : Services Ctx) (prompt : String) (n : ℤ)
    (H : ∀ (rest s : String) (c : Ctx) (w : ℤ),
      env.sectionResp prompt ("Chapter " ++ rest) s c w = none) :
    (generate_user_prompt_driven_book env prompt n).1 = none := by
  obtain ⟨hk1, _⟩ := chapters_needed_bounds n
  have htw := target_words_pos n
  simp only [generate_user_prompt_driven_book]
  rw [select_pair env]
  rcases hdc : (select_book_data_context env).1 with _ | dc
  · rfl
  · dsimp only
    rcases hpro : generate_content_block env prompt "Prologue" dc 250 with ⟨op, evp⟩
    rcases op with _ | ptext
    · rfl
    · dsimp only
      rcases hepi : generate_content_block env prompt "Epilogue" dc 250 with ⟨oe, eve⟩
      rcases oe with _ | etext
      · rfl
      · dsimp only
        rw [titles_pair env prompt dc (calculate_book_parameters n).1]
        rcases htl : (generate_chapter_titles env prompt dc
            (calculate_book_parameters n).1).1 with _ | titles
        · rfl
        · dsimp only
          have htne : titles ≠ [] :=
            titles_ne_nil_of_some env prompt dc (calculate_book_parameters n).1 hk1 htl
          have htake : 1 ≤ (calculate_book_parameters n).1.toNat := by omega
          obtain ⟨t, ts, hts⟩ : ∃ t ts,
              titles.take (calculate_book_parameters n).1.toNat = t :: ts := by
            rcases hL : titles.take (calculate_book_parameters n).1.toNat with _ | ⟨t, ts⟩
            · exact absurd hL (take_ne_nil_of_ne_nil htne htake)
            · exact ⟨t, ts, rfl⟩
          have hfail := chapterLoop_head_fail env prompt dc (calculate_book_parameters n).2
            t ts 0 (gcb_none_of_fail env prompt _ dc _ htw
              (fun s w => H (toString (0 + 1) ++ ": " ++ t) s dc w))
          rcases hcl : chapterLoop env prompt dc (calculate_book_parameters n).2
              (titles.take (calculate_book_parameters n).1.toNat) 0 with ⟨oc, evc⟩
          rw [← hts, hcl] at hfail
          obtain rfl : oc = none := hfail
          rfl


/-! ## Claims about the whole run -/

/-- C1: if every body-text generation call for a chapter-titled unit fails —
in particular the call for the first section of the first chapter, which is
always reached when the earlier stages succeed — the failure is caught
nowhere inside the pipeline: the request ends in the 500 internal-error
response and `save_book_as_pdf` is never invoked (no `pdfSave` event occurs
in the run's trace), so no partial Book reaches the Document Assembler. -/
theorem c1_generation_failure_aborts {C : Type} (env : Services C)
    (user_input : String) (num_pages : ℤ) (hne : ¬ pyStrip user_input = "")
    (H : ∀ (rest s : String) (c : C) (w : ℤ),
      env.sectionResp (pyStrip user_input) ("Chapter " ++ rest) s c w = none) :
    (generate_star_wars_book env user_input num_pages).1 = ApiResult.internalError ∧
      ∀ f, CallEvent.pdfSave f ∉ (generate_star_wars_book env user_input num_pages).2 := by
  have hbook := book_none_of_chapter_fail env (pyStrip user_input) (min num_pages 100) H
  have hbpdf := book_no_pdf env (pyStrip user_input) (min num_pages 100)
  simp only [generate_star_wars_book, hne, if_false, ite_false]
  rcases ht : env.titleResp (pyStrip user_input) with _ | raw
  · constructor
    · simp [generate_book_title, ht]
    · intro f
      simp [generate_book_title, ht]
  · rcases hb : generate_user_prompt_driven_book env (pyStrip user_input)
        (min num_pages 100) with ⟨ob, bevs⟩
    rw [hb] at hbook
    obtain rfl : ob = none := hbook
    constructor
    · simp [generate_book_title, ht]
    · intro f
      have hbevs : CallEvent.pdfSave f ∉ bevs := by
        have := hbpdf f
        rw [hb] at this
        exact this
      simp [generate_book_title, ht, hbevs]

theorem c1_generation_failure_aborts_witness :
    (¬ pyStrip "hi" = "") ∧
      ((generate_star_wars_book envC "hi" 45).1 = ApiResult.internalError ∧
        ∀ f, CallEvent.pdfSave f ∉ (generate_star_wars_book envC "hi" 45).2) :=
  ⟨by decide,
   c1_generation_failure_aborts envC "hi" 45 (by decide) (fun rest s c w => rfl)⟩

/-- C5, counterexample: with a title-generation reply that parses to exactly
one numbered title and a plan of 3 chapters (45 requested pages), the
completed Book has 1 chapter, not `chapterCount = 3`: the pipeline truncates
the title list with `[:chapters_needed]` but never pads it. -/
theorem c5_chapter_count_counterexample :
    (calculate_book_parameters 45).1 = 3 ∧
      ((generate_user_prompt_driven_book envA "p" 45).1.map
        (fun bd => bd.chapters.length)) = some 1 := by decide

/-- C5, amended: for every completed run, the number of chapters in the Book
equals `min chapterCount (number of titles returned by the title step)` —
the parsed numbered titles, or the `Chapter i` fallback list of length
exactly `chapterCount` when none parse.  Equality with `chapterCount` itself
therefore holds only when the title step yields at least `chapterCount`
titles; a response parsing to fewer (but at least one) numbered titles gives
a shorter Book. -/
theorem c5_chapter_count_amended {C : Type} (env : Services C) (prompt : String)
    (num_pages : ℤ) (ctx : C) (titles : List String) (bd : BookData)
    (hctx : (select_book_data_context env).1 = some ctx)
    (ht : (generate_chapter_titles env prompt ctx
      (calculate_book_parameters num_pages).1).1 = some titles)
    (hb : (generate_user_prompt_driven_book env prompt num_pages).1 = some bd) :
    bd.chapters.length =
      min (calculate_book_parameters num_pages).1.toNat titles.length := by
  simp only [generate_user_prompt_driven_book] at hb
  rw [select_pair env, hctx] at hb
  dsimp only at hb
  rcases hpro : generate_content_block env prompt "Prologue" ctx 250 with ⟨op, evp⟩
  rw [hpro] at hb
  rcases op with _ | ptext
  · simp at hb
  · dsimp only at hb
    rcases hepi : generate_content_block env prompt "Epilogue" ctx 250 with ⟨oe, eve⟩
    rw [hepi] at hb
    rcases oe with _ | etext
    · simp at hb
    · dsimp only at hb
      rw [titles_pair env prompt ctx (calculate_book_parameters num_pages).1, ht] at hb
      dsimp only at hb
      rcases hcl : chapterLoop env prompt ctx (calculate_book_parameters num_pages).2
          (titles.take (calculate_book_parameters num_pages).1.toNat) 0 with ⟨oc, evc⟩
      rw [hcl] at hb
      rcases oc with _ | chs
      · simp at hb
      · have hlen := chapterLoop_length env prompt ctx
          (calculate_book_parameters num_pages).2
          (titles.take (calculate_book_parameters num_pages).1.toNat) 0 chs
          (by rw [hcl])
        have hbd : bd.chapters = chs := by
          have := Option.some.inj hb.symm
          rw [this]
        rw [hbd, hlen, List.length_take]

/-- The Book value the all-success oracle `envA` produces for 28 requested
pages; used by the witness of the amended C5. -/
def bookW : BookData :=
  { swapi_call_text := "User Prompt: p"
    swapi_json_output := "selected"
    preface_text := PREFACE_TEXT
    prologue_text := "S:Start of the section."
    epilogue_text := "S:Start of the section."
    chapters := [{ heading := "Alpha", content := "S:Start of the section.",
                   image_path := some "generated_images/AbCdEfGhIjKl.png" }] }

set_option maxRecDepth 8192 in
theorem c5_chapter_count_amended_witness :
    ((select_book_data_context envA).1 = some () ∧
      (generate_chapter_titles envA "p" () (calculate_book_parameters 28).1).1 =
        some ["Alpha"] ∧
      (generate_user_prompt_driven_book envA "p" 28).1 = some bookW) ∧
    bookW.chapters.length =
      min (calculate_book_parameters 28).1.toNat (["Alpha"] : List String).length :=
  ⟨⟨by decide, by decide, by decide⟩,
   c5_chapter_count_amended envA "p" 28 () ["Alpha"] bookW
     (by decide) (by decide) (by decide)⟩

/-- C9: if any stage of chapter illustration fails uniformly — the
prompt-sanitization call, the image-generation call, or the image download —
then `generate_chapter_image` returns no image instead of raising, every
chapter of the completed run records `image_path = none`, and the run still
produces a complete Book (every planned chapter present, none missing). -/
theorem c9_illustration_failure_degrades {C : Type} (env : Services C)
    (prompt : String) (num_pages : ℤ)
    (Hsec : ∀ (ctx : C) (title s : String) (w : ℤ),
      env.sectionResp prompt title s ctx w ≠ none)
    (Htit : ∀ (ctx : C) (k : ℤ), env.titlesResp prompt ctx k ≠ none)
    (Hsel : env.selectResp ≠ none)
    (Himg : (∀ s, env.imagePromptResp s = none) ∨ (∀ q, env.imageResp q = none) ∨
      (∀ u, env.downloadResp u = none)) :
    (∀ s, (generate_chapter_image env s).1 = none) ∧
      ∃ bd, (generate_user_prompt_driven_book env prompt num_pages).1 = some bd ∧
        bd.chapters ≠ [] ∧
        bd.chapters.length =
          min (calculate_book_parameters num_pages).1.toNat
            (Option.getD ((generate_chapter_titles env prompt
              (Option.getD (select_book_data_context env).1 env.emptyCtx)
              (calculate_book_parameters num_pages).1).1) []).length ∧
        ∀ ch ∈ bd.chapters, ch.image_path = none := by
  have hnone := image_none_of_stage_failure env Himg
  refine ⟨hnone, ?_⟩
  obtain ⟨hk1, _⟩ := chapters_needed_bounds num_pages
  obtain ⟨dc, hdc⟩ := select_some_of_ne_none env Hsel
  obtain ⟨ptext, hpro1⟩ := gcb_some env prompt "Prologue" dc 250 (fun s w => Hsec dc _ s w)
  obtain ⟨etext, hepi1⟩ := gcb_some env prompt "Epilogue" dc 250 (fun s w => Hsec dc _ s w)
  obtain ⟨titles, htl, htne⟩ := titles_some_ne_nil env prompt dc
    (calculate_book_parameters num_pages).1 hk1 (Htit dc _)
  obtain ⟨chs, hcl1, hlen, himg⟩ := chapterLoop_spec env prompt dc
    (calculate_book_parameters num_pages).2 (fun t s w => Hsec dc t s w)
    (titles.take (calculate_book_parameters num_pages).1.toNat) 0
  rcases hpro : generate_content_block env prompt "Prologue" dc 250 with ⟨op, evp⟩
  rw [hpro] at hpro1
  obtain rfl : op = some ptext := hpro1
  rcases hepi : generate_content_block env prompt "Epilogue" dc 250 with ⟨oe, eve⟩
  rw [hepi] at hepi1
  obtain rfl : oe = some etext := hepi1
  rcases hcl : chapterLoop env prompt dc (calculate_book_parameters num_pages).2
      (titles.take (calculate_book_parameters num_pages).1.toNat) 0 with ⟨oc, evc⟩
  rw [hcl] at hcl1
  obtain rfl : oc = some chs := hcl1
  have hrun := book_run_eq env prompt num_pages hdc hpro hepi
    (by rw [titles_pair env prompt dc (calculate_book_parameters num_pages).1, htl]) hcl
  refine ⟨⟨"User Prompt: " ++ prompt, env.jsonDump dc, PREFACE_TEXT, ptext, etext, chs⟩,
    by rw [hrun], ?_, ?_, ?_⟩
  · have htake : 1 ≤ (calculate_book_parameters num_pages).1.toNat := by omega
    intro hc
    have h0 := take_ne_nil_of_ne_nil htne htake
    rw [show (⟨"User Prompt: " ++ prompt, env.jsonDump dc, PREFACE_TEXT, ptext, etext,
      chs⟩ : BookData).chapters = chs from rfl] at hc
    rw [hc] at hlen
    exact h0 (List.eq_nil_of_length_eq_zero hlen.symm)
  · rw [show (⟨"User Prompt: " ++ prompt, env.jsonDump dc, PREFACE_TEXT, ptext, etext,
      chs⟩ : BookData).chapters = chs from rfl, hlen, List.length_take, hdc]
    simp [htl]
  · intro ch hch
    obtain ⟨s, hs⟩ := himg ch hch
    rw [hs]
    exact hnone s

theorem c9_illustration_failure_degrades_witness :
    ((∀ (ctx : Unit) (title s : String) (w : ℤ),
        envD.sectionResp "p" title s ctx w ≠ none) ∧
      (∀ (ctx : Unit) (k : ℤ), envD.titlesResp "p" ctx k ≠ none) ∧
      envD.selectResp ≠ none) ∧
    ((∀ s, (generate_chapter_image envD s).1 = none) ∧
      ∃ bd, (generate_user_prompt_driven_book envD "p" 28).1 = some bd ∧
        bd.chapters ≠ [] ∧
        bd.chapters.length =
          min (calculate_book_parameters 28).1.toNat
            (Option.getD ((generate_chapter_titles envD "p"
              (Option.getD (select_book_data_context envD).1 envD.emptyCtx)
              (calculate_book_parameters 28).1).1) []).length ∧
        ∀ ch ∈ bd.chapters, ch.image_path = none) :=
  ⟨⟨fun ctx title s w => by simp [envD, envA],
    fun ctx k => by simp [envD, envA],
    by simp [envD, envA]⟩,
   c9_illustration_failure_degrades envD "p" 28
     (fun ctx title s w => by simp [envD, envA])
     (fun ctx k => by simp [envD, envA])
     (by simp [envD, envA])
     (Or.inr (Or.inr (fun u => rfl)))⟩

end StarWarsBookGen
